import Mathlib

/-
Verification of the land set-height command
(src/openrct2/actions/LandSetHeightAction.cpp) against its specification.

The command and its helper routines are shallowly embedded as executable
Lean functions over an explicit world state.  Machine integers are
modelled as Nat/Int; the two places where C++ unsigned wrap-around can
matter (the uint8_t zCorner accumulator and the uint32_t water-height
subtraction in CheckFloatingStructures) carry an explicit modulus.
External collaborators that are not part of the translated file (the
world-grid accessors, the clearance collaborator, the litter and wall
removal routines, the corner-height derivation and the land-height
bounds) are modelled from the specification's description of them; each
such definition says so in its doc comment.
-/

namespace LandSetHeight

/-- Modelled from the spec: vertical conversion step between element
height units and big z coordinates (world-grid collaborator constant). -/
def COORDS_Z_STEP : Nat := 8

/-- Modelled from the spec: minimum allowed land height (bounded height
range of the command parameters; game constant). -/
def MINIMUM_LAND_HEIGHT : Nat := 2

/-- Modelled from the spec: maximum allowed land height (bounded height
range of the command parameters; game constant). -/
def MAXIMUM_LAND_HEIGHT : Nat := 142

/-- Modelled from the spec: slope-style bitfield mask covering the four
raised-corner bits and the diagonal (double-height) flag. -/
def TILE_ELEMENT_SURFACE_SLOPE_MASK : Nat := 0x1F

/-- Modelled from the spec: the four raised-corner bits of the slope
style bitfield. -/
def TILE_ELEMENT_SURFACE_RAISED_CORNERS_MASK : Nat := 0x0F

/-- Modelled from the spec: the diagonal (double-height) flag of the
slope style bitfield. -/
def TILE_ELEMENT_SURFACE_DIAGONAL_FLAG : Nat := 0x10

/-- Modelled from the spec: water heights are stored by the surface
element in 16-z-unit steps, so every water height the accessor returns
is a multiple of this step. -/
def WATER_HEIGHT_STEP : Nat := 16

/-- MONEY(a, 0): money32 amounts are stored in tenths of a currency
unit; every MONEY literal in this file has zero minor units. -/
def MONEY (a : Int) : Int := a * 10

/-- Grid cell coordinate (big coordinates, as `CoordsXY`). -/
structure CoordsXY where
  x : Int
  y : Int
deriving DecidableEq, Repr

/-- Tile element type tags used by this command. -/
inductive ElementType
  | surface
  | path
  | track
  | smallScenery
  | wall
  | other
deriving DecidableEq, Repr

/-- Type-specific payload of a tile element (tagged union). -/
inductive ElementData
  /-- Surface payload: slope style, water height (big z units, as
  returned by GetWaterHeight), and the has-track-that-needs-water mark. -/
  | surface (slope : Nat) (waterHeight : Nat) (hasTrackThatNeedsWater : Bool)
  /-- Path payload: whether the path is an active level crossing. -/
  | path (isLevelCrossing : Bool)
  /-- Track payload: the owning ride's index. -/
  | track (rideIndex : Nat)
  /-- Small scenery payload: removal price of the scenery entry and its
  is-tree flag. -/
  | smallScenery (removalPrice : Int) (isTree : Bool)
  /-- Wall payload. -/
  | wall
  /-- Any other element kind (entrance, banner, large scenery, ...). -/
  | other
deriving DecidableEq, Repr

/-- One tile element of a cell's ordered stack. -/
structure TileElement where
  base : Nat
  clearance : Nat
  isGhost : Bool
  data : ElementData
deriving DecidableEq, Repr

/-- GetType(): the type tag of an element, as read off its payload. -/
def TileElement.getType (e : TileElement) : ElementType :=
  match e.data with
  | .surface _ _ _ => .surface
  | .path _ => .path
  | .track _ => .track
  | .smallScenery _ _ => .smallScenery
  | .wall => .wall
  | .other => .other

/-- Ride entry (vehicle definition): explicit max-height override, 0
meaning unset. -/
structure RideEntry where
  maxHeight : Nat
deriving DecidableEq, Repr

/-- A ride: its entry (may be missing) and the ride-type default height
ceiling. -/
structure Ride where
  entry : Option RideEntry
  typeMaxHeight : Nat
deriving DecidableEq, Repr

/-- Localized message identifiers used by the command. -/
inductive StringId
  | none
  | forbiddenByTheLocalAuthority
  | landNotOwnedByPark
  | offEdgeOfMap
  | tooLow
  | tooHigh
  | supportsCantBeExtended
  | removeLevelCrossingFirst
  /-- Element-specific obstruction text produced by
  map_obstruction_set_error_text (modelled from the spec: used purely to
  drive error-message formatting). -/
  | obstruction (ty : ElementType)
  /-- A message produced by the external construction-clearance
  collaborator. -/
  | clearance (id : Nat)
deriving DecidableEq, Repr

/-- GameActions::Status values reachable in this command. -/
inductive Status
  | ok
  | disallowed
  | unknown
deriving DecidableEq, Repr

/-- GameActions::Result: outcome, messages, cost, expenditure tag and
position hint. -/
structure Result where
  error : Status := .ok
  errorTitle : StringId := .none
  errorMessage : StringId := .none
  cost : Int := 0
  expenditureLandscaping : Bool := false
  position : Option (Int × Int × Int) := Option.none
deriving DecidableEq, Repr

/-- Result(status, title): the two-argument result constructor. -/
def mkError (s : Status) (title : StringId) : Result :=
  { error := s, errorTitle := title }

/-- MakeResult(Disallowed, STR_NONE) followed by
map_obstruction_set_error_text on the obstructing element. -/
def mkObstruction (e : Option TileElement) : Result :=
  { error := .disallowed, errorTitle := .none
    errorMessage := match e with
      | some e => .obstruction e.getType
      | Option.none => .none }

/-- Result(Disallowed, STR_NONE, clearResult message): rejection carrying
the clearance collaborator's message. -/
def mkClearError (msg : StringId) : Result :=
  { error := .disallowed, errorTitle := .none, errorMessage := msg }

/-- The world state read (and, in Execute, written) by the command:
policy flags, map bounds, ride table, the clearance collaborator, the
per-cell element stacks, and event logs for the fire-and-forget external
effects (litter cleanup, redraw invalidation). -/
structure World where
  forbidLandscapeChanges : Bool
  forbidTreeRemoval : Bool
  screenScenarioEditor : Bool
  cheatsSandboxMode : Bool
  cheatsDisableClearanceChecks : Bool
  cheatsDisableSupportLimits : Bool
  mapSizeMaxXY : Int
  inPark : CoordsXY → Bool
  rides : Nat → Option Ride
  /-- Modelled from the spec: the external construction-clearance
  collaborator (MapCanConstructWithClearAt); given the cell and the z
  range it returns Ok (none) or a structured failure message. -/
  clearAt : CoordsXY → Nat → Nat → Option StringId
  tiles : CoordsXY → List TileElement
  removedLitter : List (Int × Int × Int)
  invalidated : List (Int × Int)

/-- The command's parameters: target cell, target height (uint8 height
units) and target slope style (uint8 bitfield). -/
structure LandSetHeightAction where
  coords : CoordsXY
  height : Nat
  style : Nat
deriving DecidableEq, Repr

/-- Modelled from the spec: LocationValid, the world-bounds check on
both axis limits (the game's hard map limit is 256 tiles of 32 big
units). -/
def LocationValid (c : CoordsXY) : Bool :=
  0 ≤ c.x && c.x < 256 * 32 && 0 ≤ c.y && c.y < 256 * 32

/-- CheckParameters (LandSetHeightAction.cpp:165-198): parameter
validation; first failing rule wins. -/
def CheckParameters (w : World) (a : LandSetHeightAction) : StringId :=
  if !LocationValid a.coords then
    .offEdgeOfMap
  else if a.coords.x > w.mapSizeMaxXY || a.coords.y > w.mapSizeMaxXY then
    .offEdgeOfMap
  else if a.height < MINIMUM_LAND_HEIGHT then
    .tooLow
  else if a.height > MAXIMUM_LAND_HEIGHT then
    .tooHigh
  else if a.height > MAXIMUM_LAND_HEIGHT - 2
      && a.style &&& TILE_ELEMENT_SURFACE_SLOPE_MASK ≠ 0 then
    .tooHigh
  else if a.height = MAXIMUM_LAND_HEIGHT - 2
      && a.style &&& TILE_ELEMENT_SURFACE_DIAGONAL_FLAG ≠ 0 then
    .tooHigh
  else
    .none

/-- The overlap test shared by the three small-scenery scans
(LandSetHeightAction.cpp:209-211, 232-234, 251-253): the element is kept
for consideration unless the target height is above its clearance height
or more than 4 units below its base height. -/
def overlapsTarget (h : Nat) (e : TileElement) : Bool :=
  !(h > e.clearance) && !(h + 4 < e.base)

/-- A small-scenery element in the proposed height range whose entry is
flagged as a tree (LandSetHeightAction.cpp:207-217). -/
def treeObstruction (h : Nat) (e : TileElement) : Bool :=
  match e.data with
  | .smallScenery _ isTree => overlapsTarget h e && isTree
  | _ => false

/-- CheckTreeObstructions (LandSetHeightAction.cpp:200-220): first
small-scenery element overlapping the proposed range whose entry has the
is-tree flag, scanning the cell's stack in order. -/
def CheckTreeObstructions (w : World) (a : LandSetHeightAction) : Option TileElement :=
  (w.tiles a.coords).find? (treeObstruction a.height)

/-- A small-scenery element qualifying for removal
(LandSetHeightAction.cpp:230-234): small scenery overlapping the
proposed height range. -/
def sceneryQualifies (h : Nat) (e : TileElement) : Bool :=
  e.getType = ElementType.smallScenery && overlapsTarget h e

/-- Removal price of a small-scenery element's entry (0 for other
element kinds, which the scans never reach). -/
def removalPrice (e : TileElement) : Int :=
  match e.data with
  | .smallScenery price _ => price
  | _ => 0

/-- GetSmallSceneryRemovalCost (LandSetHeightAction.cpp:222-240),
recursion over the cell's element stack: accumulate
MONEY(removal_price, 0) of every qualifying small-scenery element. -/
def removalCostOf (h : Nat) : List TileElement → Int
  | [] => 0
  | e :: rest =>
    (if sceneryQualifies h e then MONEY (removalPrice e) else 0) + removalCostOf h rest

/-- GetSmallSceneryRemovalCost applied to the action's target cell. -/
def GetSmallSceneryRemovalCost (w : World) (a : LandSetHeightAction) : Int :=
  removalCostOf a.height (w.tiles a.coords)

/-- SmallSceneryRemoval (LandSetHeightAction.cpp:242-257), the compacting
removal loop over one cell's stack.  `atTileStart` records whether the
cursor sits on the tile's first element.  On removing a qualifying
element the C++ cursor steps back one slot and the loop condition reads
that slot's last-for-tile flag: for a removal at a later position the
slot holds the element before the removed one, which is last exactly
when nothing follows the removed element; for a removal at the tile's
first position the slot lies before the tile, holding the previous
tile's last element, whose last-for-tile flag is set, so the loop stops
with the rest of the stack untouched. -/
def sceneryRemovalOf (h : Nat) : Bool → List TileElement → List TileElement
  | _, [] => []
  | atTileStart, e :: rest =>
    if sceneryQualifies h e then
      if atTileStart then rest
      else sceneryRemovalOf h false rest
    else
      e :: sceneryRemovalOf h false rest

/-- SmallSceneryRemoval applied to the world: replaces the target cell's
stack by the loop's result. -/
def SmallSceneryRemoval (w : World) (a : LandSetHeightAction) : World :=
  { w with tiles := fun c =>
      if c = a.coords then sceneryRemovalOf a.height true (w.tiles a.coords)
      else w.tiles c }

/-- One track element violating the ride support ceiling
(LandSetHeightAction.cpp:266-287): the owning ride and its entry exist,
the ceiling is the entry's override or else the ride-type default, and
the non-negative gap between the track's clearance height and the target
height exceeds the ceiling once halved.  The gap and its halving are
computed on naturals, which agrees with the C++ int arithmetic because
the code only divides when the gap is non-negative. -/
def rideSupportViolation (w : World) (h : Nat) (e : TileElement) : Bool :=
  match e.data with
  | .track rideIndex =>
    match w.rides rideIndex with
    | some ride =>
      match ride.entry with
      | some entry =>
        let maxHeight := if entry.maxHeight = 0 then ride.typeMaxHeight else entry.maxHeight
        h ≤ e.clearance && maxHeight < (e.clearance - h) / 2
      | Option.none => false
    | Option.none => false
  | _ => false

/-- CheckRideSupports (LandSetHeightAction.cpp:259-290): the loop returns
STR_SUPPORTS_CANT_BE_EXTENDED on the first violating track element and
STR_NONE otherwise, which is the error of any violation existing. -/
def CheckRideSupports (w : World) (a : LandSetHeightAction) : StringId :=
  if (w.tiles a.coords).any (rideSupportViolation w a.height) then
    .supportsCantBeExtended
  else
    .none

/-- Modelled from the spec: map_get_corner_height, the corner-height
derivation ("base height + slope style per corner per direction": +2 for
the direction's raised-corner bit, +2 more when the slope is exactly the
steep diagonal shape towards that corner), with the game's slope-bit
constants (N = 1, E = 2, S = 4, W = 8, double-height = 16). -/
def map_get_corner_height (z : Nat) (slope : Nat) (direction : Nat) : Nat :=
  match direction with
  | 0 => if slope &&& 1 ≠ 0 then (if slope = 11 + 16 then z + 4 else z + 2) else z
  | 1 => if slope &&& 8 ≠ 0 then (if slope = 13 + 16 then z + 4 else z + 2) else z
  | 2 => if slope &&& 4 ≠ 0 then (if slope = 14 + 16 then z + 4 else z + 2) else z
  | _ => if slope &&& 2 ≠ 0 then (if slope = 7 + 16 then z + 4 else z + 2) else z

/-- GetSlope() of a surface element (0 when the payload is not a
surface, which the callers never reach). -/
def surfaceSlope (e : TileElement) : Nat :=
  match e.data with
  | .surface slope _ _ => slope
  | _ => 0

/-- GetWaterHeight() of a surface element (0 when the payload is not a
surface). -/
def surfaceWaterHeight (e : TileElement) : Nat :=
  match e.data with
  | .surface _ waterHeight _ => waterHeight
  | _ => 0

/-- HasTrackThatNeedsWater() of a surface element. -/
def surfaceHasTrackThatNeedsWater (e : TileElement) : Bool :=
  match e.data with
  | .surface _ _ needsWater => needsWater
  | _ => false

/-- Modelled from the spec: tile_element_get_corner_height, the current
effective corner height of the surface element (its base height combined
with its stored slope style). -/
def tile_element_get_corner_height (e : TileElement) (direction : Nat) : Nat :=
  map_get_corner_height e.base (surfaceSlope e) direction

/-- One corner's contribution to the height-change cost
(LandSetHeightAction.cpp:355-357): MONEY(abs(current − proposed)·5/2, 0)
with the C++ integer division (the operand is non-negative, so floor). -/
def cornerCost (cur proposed : Nat) : Int :=
  MONEY (((((cur : Int) - (proposed : Int)).natAbs * 5) / 2 : Nat) : Int)

/-- ALL_DIRECTIONS: the four corner directions. -/
def ALL_DIRECTIONS : List Nat := [0, 1, 2, 3]

/-- GetSurfaceHeightChangeCost (LandSetHeightAction.cpp:350-360): sum
over the four directions of the corner cost between the surface's
current corner height and the proposed corner height derived from the
target height and the slope part of the target style. -/
def GetSurfaceHeightChangeCost (a : LandSetHeightAction) (se : TileElement) : Int :=
  ALL_DIRECTIONS.foldl
    (fun cost i =>
      cost + cornerCost (tile_element_get_corner_height se i)
        (map_get_corner_height a.height (a.style &&& TILE_ELEMENT_SURFACE_SLOPE_MASK) i))
    0

/-- CheckFloatingStructures (LandSetHeightAction.cpp:292-314), reduced to
whether it reports an obstruction: the surface requires water for track
above it, water is present, and the slope-adjusted proposed corner
height rises into the water-clearance zone.  zCorner is a uint8_t
accumulator and the right-hand side is computed in uint32 arithmetic
(waterHeight is unsigned, so subtracting 2 wraps modulo 2^32), both kept
explicit here. -/
def CheckFloatingStructures (a : LandSetHeightAction) (se : TileElement) : Bool :=
  surfaceHasTrackThatNeedsWater se &&
    (let waterHeight := surfaceWaterHeight se
     waterHeight ≠ 0 &&
       (let zCorner :=
          if a.style &&& TILE_ELEMENT_SURFACE_SLOPE_MASK ≠ 0 then
            if a.style &&& TILE_ELEMENT_SURFACE_DIAGONAL_FLAG ≠ 0 then
              (a.height % 256 + 2) % 256 + 2
            else
              (a.height % 256 + 2) % 256
          else
            a.height % 256
        (waterHeight / COORDS_Z_STEP + (2 ^ 32 - 2)) % 2 ^ 32 < zCorner % 256))

/-- One non-removable element blocking the proposed shape
(LandSetHeightAction.cpp:322-345), at stack position `i` with the
surface at position `si`: walls, small scenery, ghost elements and the
surface itself are skipped; an element stacked above the surface blocks
when the proposed upper corner height exceeds its base height; an
element at or below blocks when the target height is below its clearance
height. -/
def unremovableBlocked (h zCorner si : Nat) (ie : Nat × TileElement) : Bool :=
  ie.2.getType ≠ ElementType.wall &&
  ie.2.getType ≠ ElementType.smallScenery &&
  !ie.2.isGhost &&
  ie.1 ≠ si &&
  (if si < ie.1 then ie.2.base < zCorner else h < ie.2.clearance)

/-- CheckUnremovableObstructions (LandSetHeightAction.cpp:316-348): the
first blocking element of the cell's stack, scanning in order. -/
def CheckUnremovableObstructions (w : World) (a : LandSetHeightAction) (si : Nat)
    (zCorner : Nat) : Option TileElement :=
  (((w.tiles a.coords).enum.find? (unremovableBlocked a.height zCorner si)).map (fun ie => ie.2))

/-- map_get_surface_element_at, modelled from the spec's world-grid
accessor: the first surface element of the cell's stack, together with
its stack position (the C++ pointer, used for ordering comparisons). -/
def map_get_surface_element_at (w : World) (c : CoordsXY) : Option (Nat × TileElement) :=
  (w.tiles c).enum.find? (fun ie => ie.2.getType = ElementType.surface)

/-- map_get_footpath_element at a z coordinate, modelled from the spec's
world-grid accessor: the first path element of the stack whose base z
equals the given z. -/
def map_get_footpath_element (w : World) (c : CoordsXY) (z : Nat) : Option TileElement :=
  (w.tiles c).find? (fun e => e.getType = ElementType.path && e.base * COORDS_Z_STEP = z)

/-- IsLevelCrossing of a path element (payload flag; modelled from the
spec: "a path element directly below marked as an active level
crossing"). -/
def pathIsLevelCrossing (e : TileElement) : Bool :=
  match e.data with
  | .path crossing => crossing
  | _ => false

/-- The proposed upper corner height computed by Query
(LandSetHeightAction.cpp:104-112): a uint8_t starting at the target
height, +2 when any raised-corner bit is set, +2 more when additionally
the diagonal flag is set. -/
def queryZCorner (a : LandSetHeightAction) : Nat :=
  if a.style &&& TILE_ELEMENT_SURFACE_RAISED_CORNERS_MASK ≠ 0 then
    if a.style &&& TILE_ELEMENT_SURFACE_DIAGONAL_FLAG ≠ 0 then
      ((a.height % 256 + 2) % 256 + 2) % 256
    else
      (a.height % 256 + 2) % 256
  else
    a.height % 256

/-- The tail of Query from the floating-structures check on
(LandSetHeightAction.cpp:94-135): floating-structures check, then —
unless clearance checks are disabled — the clearance collaborator and
the unremovable-obstruction scan, and finally the cost result. -/
def QueryAfterCrossing (w : World) (a : LandSetHeightAction) (si : Nat)
    (se : TileElement) (sceneryRemovalCost : Int) : Result × World :=
  if CheckFloatingStructures a se then
    (mkObstruction ((w.tiles a.coords).get? (si + 1)), w)
  else if !w.cheatsDisableClearanceChecks then
    let zCorner := queryZCorner a
    match w.clearAt a.coords (a.height * COORDS_Z_STEP) (zCorner * COORDS_Z_STEP) with
    | some msg => (mkClearError msg, w)
    | Option.none =>
      match CheckUnremovableObstructions w a si zCorner with
      | some te => (mkObstruction (some te), w)
      | Option.none =>
        ({ cost := sceneryRemovalCost + GetSurfaceHeightChangeCost a se
           expenditureLandscaping := true }, w)
  else
    ({ cost := sceneryRemovalCost + GetSurfaceHeightChangeCost a se
       expenditureLandscaping := true }, w)

/-- The part of Query from the surface lookup on
(LandSetHeightAction.cpp:81-135): surface lookup (Unknown when absent),
level-crossing check at the old surface height, then the tail. -/
def QuerySurfaceOnwards (w : World) (a : LandSetHeightAction)
    (sceneryRemovalCost : Int) : Result × World :=
  match map_get_surface_element_at w a.coords with
  | Option.none => (mkError .unknown .none, w)
  | some (si, se) =>
    match map_get_footpath_element w a.coords (se.base * COORDS_Z_STEP) with
    | some pe =>
      if pathIsLevelCrossing pe then
        (mkError .disallowed .removeLevelCrossingFirst, w)
      else
        QueryAfterCrossing w a si se sceneryRemovalCost
    | Option.none =>
      QueryAfterCrossing w a si se sceneryRemovalCost

/-- The part of Query from the ride-support check on
(LandSetHeightAction.cpp:71-135). -/
def QuerySupportsOnwards (w : World) (a : LandSetHeightAction)
    (sceneryRemovalCost : Int) : Result × World :=
  if !w.cheatsDisableSupportLimits && CheckRideSupports w a ≠ StringId.none then
    (mkError .disallowed (CheckRideSupports w a), w)
  else
    QuerySurfaceOnwards w a sceneryRemovalCost

/-- Query (LandSetHeightAction.cpp:33-136), in state-passing form.  The
C++ method is const and calls only read-only collaborators, so every
exit returns the world it was given. -/
def QueryRun (w : World) (a : LandSetHeightAction) : Result × World :=
  if w.forbidLandscapeChanges then
    (mkError .disallowed .forbiddenByTheLocalAuthority, w)
  else if CheckParameters w a ≠ StringId.none then
    (mkError .disallowed (CheckParameters w a), w)
  else if (!w.screenScenarioEditor && !w.cheatsSandboxMode) && !w.inPark a.coords then
    (mkError .disallowed .landNotOwnedByPark, w)
  else
    match
      (if !w.cheatsDisableClearanceChecks && w.forbidTreeRemoval then
        CheckTreeObstructions w a
      else
        Option.none) with
    | some te => (mkObstruction (some te), w)
    | Option.none =>
      QuerySupportsOnwards w a
        (if !w.cheatsDisableClearanceChecks then GetSmallSceneryRemovalCost w a else 0)

/-- Modelled from the spec: tile_element_height, the world-grid
collaborator's surface height at a cell (the surface's base z; 16, the
collaborator's minimum, when no surface exists). -/
def tile_element_height (w : World) (c : CoordsXY) : Int :=
  match (w.tiles c).find? (fun e => e.getType = ElementType.surface) with
  | some e => (e.base : Int) * COORDS_Z_STEP
  | Option.none => 16

/-- Modelled from the spec: footpath_remove_litter, the litter cleanup
collaborator.  The spec does not detail litter state, so the call is
recorded as an external effect event. -/
def footpathRemoveLitter (w : World) (c : CoordsXY) (z : Int) : World :=
  { w with removedLitter := (c.x, c.y, z) :: w.removedLitter }

/-- Modelled from the spec: wall_remove_at, the wall removal step —
walls are always removable; every wall element of the cell's stack whose
vertical extent overlaps the given z range is detached. -/
def wallRemoveAt (w : World) (c : CoordsXY) (z1 z2 : Int) : World :=
  { w with tiles := fun c2 =>
      if c2 = c then
        (w.tiles c).filter (fun e =>
          !(e.getType = ElementType.wall
            && (e.base : Int) * COORDS_Z_STEP < z2
            && z1 < (e.clearance : Int) * COORDS_Z_STEP))
      else w.tiles c2 }

/-- SetSurfaceHeight on one element (LandSetHeightAction.cpp:362-371):
base and clearance height become the target height, the slope becomes
the target style, and a non-zero water height that converts to at most
the target height is reset to zero. -/
def setSurfaceHeightElem (a : LandSetHeightAction) (e : TileElement) : TileElement :=
  { e with
    base := a.height
    clearance := a.height
    data :=
      match e.data with
      | .surface _ waterHeight needsWater =>
        .surface a.style
          (if waterHeight / COORDS_Z_STEP ≠ 0 && waterHeight / COORDS_Z_STEP ≤ a.height
           then 0 else waterHeight)
          needsWater
      | d => d }

/-- The in-place mutation of SetSurfaceHeight applied to the cell's
stack: the element the surface pointer refers to (the first surface
element) is overwritten. -/
def updateFirstSurface (a : LandSetHeightAction) : List TileElement → List TileElement
  | [] => []
  | e :: rest =>
    if e.getType = ElementType.surface then setSurfaceHeightElem a e :: rest
    else e :: updateFirstSurface a rest

/-- SetSurfaceHeight (LandSetHeightAction.cpp:362-374) applied to the
world: overwrite the cell's surface element and record the
map_invalidate_tile_full event. -/
def SetSurfaceHeightW (w : World) (a : LandSetHeightAction) : World :=
  { w with
    tiles := fun c =>
      if c = a.coords then updateFirstSurface a (w.tiles a.coords) else w.tiles c
    invalidated := (a.coords.x, a.coords.y) :: w.invalidated }

/-- Execute (LandSetHeightAction.cpp:138-163): litter cleanup, then —
unless clearance checks are disabled — wall removal, scenery removal
cost and scenery removal, then surface lookup (Unknown when absent),
height-change cost and the surface mutation. -/
def ExecuteRun (w : World) (a : LandSetHeightAction) : Result × World :=
  let surfaceHeight := tile_element_height w a.coords
  let w1 := footpathRemoveLitter w a.coords surfaceHeight
  let cw : Int × World :=
    if !w.cheatsDisableClearanceChecks then
      let w2 := wallRemoveAt w1 a.coords ((a.height : Int) * 8 - 16) ((a.height : Int) * 8 + 32)
      (GetSmallSceneryRemovalCost w2 a, SmallSceneryRemoval w2 a)
    else
      (0, w1)
  match map_get_surface_element_at cw.2 a.coords with
  | Option.none => (mkError .unknown .none, cw.2)
  | some (_, se) =>
    ({ cost := cw.1 + GetSurfaceHeightChangeCost a se
       expenditureLandscaping := true
       position := some (a.coords.x + 16, a.coords.y + 16, surfaceHeight) },
     SetSurfaceHeightW cw.2 a)

/-- A quiet baseline world for concrete witnesses: no restrictive
policies, cheats off, every cell owned by the park, empty cells, a
permissive clearance collaborator and no rides. -/
def W0 : World :=
  { forbidLandscapeChanges := false
    forbidTreeRemoval := false
    screenScenarioEditor := false
    cheatsSandboxMode := false
    cheatsDisableClearanceChecks := false
    cheatsDisableSupportLimits := false
    mapSizeMaxXY := 8000
    inPark := fun _ => true
    rides := fun _ => Option.none
    clearAt := fun _ _ _ => Option.none
    tiles := fun _ => []
    removedLitter := []
    invalidated := [] }

/-- Baseline world with the forbid-landscape-changes policy active. -/
def WForbid : World := { W0 with forbidLandscapeChanges := true }

/-- Baseline world where no cell is park-owned. -/
def WOutside : World := { W0 with inPark := fun _ => false }

/-- A concrete command: cell (320, 320), height 16, flat style. -/
def act0 : LandSetHeightAction := { coords := ⟨320, 320⟩, height := 16, style := 0 }

/-- A protected tree element overlapping target height 16: small scenery
with the is-tree flag, base 16, clearance 18. -/
def treeElem : TileElement :=
  { base := 16, clearance := 18, isGhost := false, data := .smallScenery 10 true }

/-- Baseline world with tree removal forbidden and a protected tree (and
another obstruction) on the target cell. -/
def WTree : World :=
  { W0 with
    forbidTreeRemoval := true
    tiles := fun c => if c = ⟨320, 320⟩ then
        [{ base := 14, clearance := 14, isGhost := false, data := .surface 0 0 false },
         treeElem,
         { base := 20, clearance := 24, isGhost := false, data := .track 3 }]
      else [] }

/-- A command at the maximum height minus 1 with a raised corner. -/
def actHigh1 : LandSetHeightAction := { coords := ⟨320, 320⟩, height := 141, style := 1 }

/-- A command at the maximum height minus 2 with the diagonal flag. -/
def actHigh2 : LandSetHeightAction := { coords := ⟨320, 320⟩, height := 140, style := 0x17 }

/-- Baseline world whose target cell carries a surface at height 14 with
a directly-overlaid level-crossing path. -/
def WCross : World :=
  { W0 with
    tiles := fun c => if c = ⟨320, 320⟩ then
        [{ base := 14, clearance := 14, isGhost := false, data := .surface 0 0 false },
         { base := 14, clearance := 16, isGhost := false, data := .path true }]
      else [] }

/-- A surface element at height 14 with water at z 144 (18 height
units). -/
def surfWater : TileElement :=
  { base := 14, clearance := 14, isGhost := false, data := .surface 0 144 false }

/-- A qualifying (non-tree) scenery element with removal price 15. -/
def scenA : TileElement :=
  { base := 16, clearance := 18, isGhost := false, data := .smallScenery 15 false }

/-- A qualifying (non-tree) scenery element with removal price 25. -/
def scenB : TileElement :=
  { base := 17, clearance := 19, isGhost := false, data := .smallScenery 25 false }

/-- A qualifying (non-tree) scenery element with removal price 40. -/
def scenC : TileElement :=
  { base := 18, clearance := 20, isGhost := false, data := .smallScenery 40 false }

/-- A surface element at height 14 with no water. -/
def surf14 : TileElement :=
  { base := 14, clearance := 14, isGhost := false, data := .surface 0 0 false }

/-- A stack with the surface first and three adjacent qualifying
scenery elements. -/
def stack3 : List TileElement := [surf14, scenA, scenB, scenC]

/-- A command raising the cell to height 15 (one unit above surf14),
flat style. -/
def act15 : LandSetHeightAction := { coords := ⟨320, 320⟩, height := 15, style := 0 }

/-- Baseline world whose target cell carries only the flat surface at
height 14. -/
def W16 : World :=
  { W0 with tiles := fun c => if c = ⟨320, 320⟩ then [surf14] else [] }

/-- A wall element spanning heights 14 to 18. -/
def wallElem : TileElement :=
  { base := 14, clearance := 18, isGhost := false, data := .wall }

/-- Baseline world whose target cell has a wall and a qualifying scenery
element but no surface element. -/
def WNoSurf : World :=
  { W0 with tiles := fun c => if c = ⟨320, 320⟩ then [wallElem, scenA] else [] }

/-- Every exit of the tail of Query returns the incoming world. -/
theorem queryAfterCrossing_frame (w : World) (a : LandSetHeightAction) (si : Nat)
    (se : TileElement) (c : Int) : (QueryAfterCrossing w a si se c).2 = w := by
  simp only [QueryAfterCrossing]
  repeat' split
  all_goals rfl

/-- Every exit of Query's surface-onwards part returns the incoming
world. -/
theorem querySurfaceOnwards_frame (w : World) (a : LandSetHeightAction) (c : Int) :
    (QuerySurfaceOnwards w a c).2 = w := by
  unfold QuerySurfaceOnwards
  repeat' split
  all_goals first
    | rfl
    | exact queryAfterCrossing_frame ..

/-- Every exit of Query's supports-onwards part returns the incoming
world. -/
theorem querySupportsOnwards_frame (w : World) (a : LandSetHeightAction) (c : Int) :
    (QuerySupportsOnwards w a c).2 = w := by
  unfold QuerySupportsOnwards
  split
  · rfl
  · exact querySurfaceOnwards_frame ..

/-- Every exit of Query returns the incoming world. -/
theorem queryRun_frame (w : World) (a : LandSetHeightAction) : (QueryRun w a).2 = w := by
  unfold QueryRun
  repeat' split
  all_goals first
    | rfl
    | exact querySupportsOnwards_frame ..

/-- C1: for every command parameter set and every world state, Query
returns its result with the world grid, the event logs and every other
state component unchanged — the tile stacks in particular — so all
mutation is confined to Execute; the embedded Query mirrors the C++
method, whose calls are all read-only. -/
theorem c1_query_does_not_mutate (w : World) (a : LandSetHeightAction) :
    (QueryRun w a).2 = w ∧ ∀ c : CoordsXY, ((QueryRun w a).2).tiles c = w.tiles c := by
  refine ⟨queryRun_frame w a, fun c => ?_⟩
  rw [queryRun_frame w a]

/-- C2: two successive calls to Query with the same parameters — the
second running on the world returned by the first — produce identical
results (same outcome status, cost and messages) and the same world:
Query is a deterministic function of its parameters and the state it
reads. -/
theorem c2_query_idempotent (w : World) (a : LandSetHeightAction) :
    (QueryRun ((QueryRun w a).2) a).1 = (QueryRun w a).1 ∧
      (QueryRun ((QueryRun w a).2) a).2 = (QueryRun w a).2 := by
  rw [queryRun_frame w a]
  exact ⟨rfl, queryRun_frame w a⟩

/-- C7: the forbid-landscape-changes policy flag makes Query fail
immediately with Disallowed (the local-authority message), short-
circuiting every other check; and outside the scenario editor and
sandbox mode a cell outside park-owned territory is rejected with
Disallowed before any obstruction rule runs — exactly with the
land-not-owned message once the policy flag is clear and the parameters
are valid. -/
theorem c7_authorization_gate :
    (∀ (w : World) (a : LandSetHeightAction), w.forbidLandscapeChanges = true →
      QueryRun w a = (mkError .disallowed .forbiddenByTheLocalAuthority, w)) ∧
    (∀ (w : World) (a : LandSetHeightAction), w.screenScenarioEditor = false →
      w.cheatsSandboxMode = false → w.inPark a.coords = false →
      ((QueryRun w a).1).error = .disallowed) ∧
    (∀ (w : World) (a : LandSetHeightAction), w.forbidLandscapeChanges = false →
      CheckParameters w a = .none → w.screenScenarioEditor = false →
      w.cheatsSandboxMode = false → w.inPark a.coords = false →
      QueryRun w a = (mkError .disallowed .landNotOwnedByPark, w)) := by
  refine ⟨fun w a hf => ?_, fun w a he hs hp => ?_, fun w a hf hcp he hs hp => ?_⟩
  · simp [QueryRun, hf]
  · by_cases hf : w.forbidLandscapeChanges
    · simp [QueryRun, hf, mkError]
    · by_cases hcp : CheckParameters w a = StringId.none
      · simp [QueryRun, hf, hcp, he, hs, hp, mkError]
      · simp [QueryRun, hf, hcp, mkError]
  · simp [QueryRun, hf, hcp, he, hs, hp]

/-- C7 witness: at a concrete world and command, the policy flag alone
forces the local-authority rejection, and a cell outside the park is
rejected with the land-not-owned message. -/
theorem c7_authorization_gate_witness :
    QueryRun WForbid act0 = (mkError .disallowed .forbiddenByTheLocalAuthority, WForbid) ∧
      ((QueryRun WOutside act0).1).error = .disallowed ∧
      QueryRun WOutside act0 = (mkError .disallowed .landNotOwnedByPark, WOutside) :=
  ⟨c7_authorization_gate.1 WForbid act0 rfl,
   c7_authorization_gate.2.1 WOutside act0 rfl rfl rfl,
   c7_authorization_gate.2.2 WOutside act0 rfl (by decide) rfl rfl rfl⟩

/-- C5: with the tree-removal-forbidden policy active and clearance
checks enabled, the presence of any small-scenery element flagged as a
tree that overlaps the proposed height range (clearance height at least
the target height and base height at most the target height plus 4)
forces Query to return Disallowed, whatever the rest of the world state
— every check that could fire before the tree pre-check also returns
Disallowed, and the tree pre-check runs before generic clearance. -/
theorem c5_tree_protection_precedence (w : World) (a : LandSetHeightAction)
    (hft : w.forbidTreeRemoval = true)
    (hcc : w.cheatsDisableClearanceChecks = false)
    (htree : ∃ e ∈ w.tiles a.coords, e.getType = ElementType.smallScenery ∧
      (match e.data with | .smallScenery _ isTree => isTree | _ => false) = true ∧
      a.height ≤ e.clearance ∧ e.base ≤ a.height + 4) :
    ((QueryRun w a).1).error = .disallowed := by
  have hany : (w.tiles a.coords).any (treeObstruction a.height) = true := by
    obtain ⟨e, hmem, hty, htr, hcl, hb⟩ := htree
    refine List.any_eq_true.mpr ⟨e, hmem, ?_⟩
    rcases e with ⟨base, clearance, ghost, data⟩
    cases data <;> simp_all [treeObstruction, overlapsTarget, TileElement.getType]
  by_cases hf : w.forbidLandscapeChanges
  · simp [QueryRun, hf, mkError]
  · by_cases hcp : CheckParameters w a = StringId.none
    · by_cases hown : ((!w.screenScenarioEditor && !w.cheatsSandboxMode)
          && !w.inPark a.coords) = true
      · simp [QueryRun, hf, hcp, hown, mkError]
      · have hsome : (CheckTreeObstructions w a).isSome := by
          rw [CheckTreeObstructions]
          rw [List.find?_isSome]
          exact List.any_eq_true.mp hany
        obtain ⟨te, hte⟩ := Option.isSome_iff_exists.mp hsome
        simp [QueryRun, hf, hcp, hown, hcc, hft, hte, mkObstruction]
    · simp [QueryRun, hf, hcp, mkError]

/-- C5 witness: on a concrete world holding a protected tree overlapping
the target range, Query is Disallowed. -/
theorem c5_tree_protection_precedence_witness :
    ((QueryRun WTree act0).1).error = .disallowed :=
  c5_tree_protection_precedence WTree act0 rfl rfl
    ⟨treeElem, by decide, by decide, by decide, by decide, by decide⟩

/-- C6: for a cell passing the coordinate checks, a target height in the
top two allowed values (within 2 units of the maximum) together with any
slope bit set fails parameter validation with TooHigh; and a target
height of exactly maximum − 2 together with the diagonal flag set fails
with TooHigh. -/
theorem c6_too_high_with_slope (w : World) (a : LandSetHeightAction)
    (hlv : LocationValid a.coords = true)
    (hx : a.coords.x ≤ w.mapSizeMaxXY) (hy : a.coords.y ≤ w.mapSizeMaxXY) :
    ((a.height = MAXIMUM_LAND_HEIGHT - 1 ∨ a.height = MAXIMUM_LAND_HEIGHT) →
      a.style &&& TILE_ELEMENT_SURFACE_SLOPE_MASK ≠ 0 →
      CheckParameters w a = .tooHigh) ∧
    (a.height = MAXIMUM_LAND_HEIGHT - 2 →
      a.style &&& TILE_ELEMENT_SURFACE_DIAGONAL_FLAG ≠ 0 →
      CheckParameters w a = .tooHigh) := by
  have hx' : ¬ (w.mapSizeMaxXY < a.coords.x) := not_lt.mpr hx
  have hy' : ¬ (w.mapSizeMaxXY < a.coords.y) := not_lt.mpr hy
  constructor
  · rintro (hh | hh) hslope <;>
      simp [CheckParameters, hlv, hx', hy', hh, hslope,
        MAXIMUM_LAND_HEIGHT, MINIMUM_LAND_HEIGHT]
  · intro hh hdiag
    simp [CheckParameters, hlv, hx', hy', hh, hdiag,
      MAXIMUM_LAND_HEIGHT, MINIMUM_LAND_HEIGHT]

/-- C6 witness: concrete commands at heights 141 (with a slope bit) and
140 (with the diagonal flag) are rejected as TooHigh on the baseline
world. -/
theorem c6_too_high_with_slope_witness :
    CheckParameters W0 actHigh1 = .tooHigh ∧ CheckParameters W0 actHigh2 = .tooHigh :=
  ⟨(c6_too_high_with_slope W0 actHigh1 (by decide) (by decide) (by decide)).1
      (Or.inl rfl) (by decide),
   (c6_too_high_with_slope W0 actHigh2 (by decide) (by decide) (by decide)).2
      rfl (by decide)⟩

/-- C8: a cell whose current surface element has a directly-overlaid
path element (a path at the surface's base z) that is an active level
crossing makes Query reject the height change with the
remove-level-crossing-first message, for every target height and slope
style for which the command is otherwise admissible — the check reads
only the old surface height, so neither the target height nor the style
is consulted.  The side hypotheses (valid parameters, authorization, no
tree-flagged scenery, no track on the cell) rule out the rejections
sequenced before the level-crossing check; none of them mention the
crossing. -/
theorem c8_level_crossing_guard (w : World) (a : LandSetHeightAction)
    (si : Nat) (se pe : TileElement)
    (hf : w.forbidLandscapeChanges = false)
    (hcp : CheckParameters w a = .none)
    (hown : ((!w.screenScenarioEditor && !w.cheatsSandboxMode)
      && !w.inPark a.coords) = false)
    (hnt : ∀ e ∈ w.tiles a.coords,
      (match e.data with | .smallScenery _ isTree => isTree | _ => false) = false)
    (htrk : ∀ e ∈ w.tiles a.coords, e.getType ≠ ElementType.track)
    (hsurf : map_get_surface_element_at w a.coords = some (si, se))
    (hpath : map_get_footpath_element w a.coords (se.base * COORDS_Z_STEP) = some pe)
    (hcross : pathIsLevelCrossing pe = true) :
    QueryRun w a = (mkError .disallowed .removeLevelCrossingFirst, w) := by
  have htn : CheckTreeObstructions w a = Option.none := by
    rw [CheckTreeObstructions]
    refine List.find?_eq_none.mpr fun e hmem => ?_
    have := hnt e hmem
    rcases e with ⟨base, clearance, ghost, data⟩
    cases data <;> simp_all [treeObstruction]
  have hrs : CheckRideSupports w a = .none := by
    rw [CheckRideSupports]
    have : (w.tiles a.coords).any (rideSupportViolation w a.height) = false := by
      refine List.any_eq_false.mpr fun e hmem => ?_
      have := htrk e hmem
      rcases e with ⟨base, clearance, ghost, data⟩
      cases data <;> simp_all [rideSupportViolation, TileElement.getType]
    simp [this]
  simp [QueryRun, QuerySupportsOnwards, QuerySurfaceOnwards, hf, hcp, hown, htn, hrs,
    hsurf, hpath, hcross]

/-- C8 witness: on the concrete crossing world, the command is rejected
with the remove-level-crossing-first message. -/
theorem c8_level_crossing_guard_witness :
    QueryRun WCross act0 = (mkError .disallowed .removeLevelCrossingFirst, WCross) :=
  c8_level_crossing_guard WCross act0 0
    { base := 14, clearance := 14, isGhost := false, data := .surface 0 0 false }
    { base := 14, clearance := 16, isGhost := false, data := .path true }
    rfl (by decide) rfl (by decide) (by decide) (by decide) (by decide) rfl

/-- C10: SetSurfaceHeight sets the surface element's base height and
clearance height to the target height and its slope to the target
style; a non-zero water height whose height-unit conversion is at most
the target height is reset to zero, and any other water height is left
unchanged.  Water heights are stored by the external surface accessor in
16-z-unit steps, stated here as the divisibility hypothesis. -/
theorem c10_set_surface_height (a : LandSetHeightAction) (e : TileElement)
    (slope waterHeight : Nat) (needsWater : Bool)
    (hdata : e.data = .surface slope waterHeight needsWater)
    (hstep : waterHeight % WATER_HEIGHT_STEP = 0) :
    (setSurfaceHeightElem a e).base = a.height ∧
    (setSurfaceHeightElem a e).clearance = a.height ∧
    surfaceSlope (setSurfaceHeightElem a e) = a.style ∧
    (waterHeight ≠ 0 → waterHeight / COORDS_Z_STEP ≤ a.height →
      surfaceWaterHeight (setSurfaceHeightElem a e) = 0) ∧
    (¬(waterHeight ≠ 0 ∧ waterHeight / COORDS_Z_STEP ≤ a.height) →
      surfaceWaterHeight (setSurfaceHeightElem a e) = waterHeight) := by
  rcases e with ⟨base, clearance, ghost, data⟩
  simp only at hdata
  subst hdata
  refine ⟨rfl, rfl, rfl, ?_, ?_⟩
  · intro hne hle
    have h8 : waterHeight / COORDS_Z_STEP ≠ 0 := by
      simp only [COORDS_Z_STEP]
      simp only [WATER_HEIGHT_STEP] at hstep
      omega
    simp [setSurfaceHeightElem, surfaceWaterHeight, h8, hle]
  · intro hcond
    by_cases hz : waterHeight = 0
    · subst hz
      simp [setSurfaceHeightElem, surfaceWaterHeight, COORDS_Z_STEP]
    · have hgt : ¬ (waterHeight / COORDS_Z_STEP ≤ a.height) :=
        fun hle => hcond ⟨hz, hle⟩
      simp [setSurfaceHeightElem, surfaceWaterHeight, hgt]

/-- C10 witness: raising the surface to height 16 keeps water at 18
units, while raising it to height 18 clears the water; base, clearance
and slope are set from the command. -/
theorem c10_set_surface_height_witness :
    (setSurfaceHeightElem act0 surfWater).base = 16 ∧
      surfaceWaterHeight (setSurfaceHeightElem act0 surfWater) = 144 ∧
      surfaceWaterHeight
        (setSurfaceHeightElem { act0 with height := 18 } surfWater) = 0 :=
  ⟨(c10_set_surface_height act0 surfWater 0 144 false rfl rfl).1,
   (c10_set_surface_height act0 surfWater 0 144 false rfl rfl).2.2.2.2 (by decide),
   (c10_set_surface_height { act0 with height := 18 } surfWater 0 144 false rfl
      rfl).2.2.2.1 (by decide) (by decide)⟩

/-- Away from the tile's first position the compacting removal loop
removes exactly the qualifying small-scenery elements: after a removal
the cursor re-examines the shifted successor, so the loop visits every
element once. -/
theorem sceneryRemovalOf_false_eq_filter (h : Nat) (l : List TileElement) :
    sceneryRemovalOf h false l = l.filter (fun e => !sceneryQualifies h e) := by
  induction l with
  | nil => rfl
  | cons e rest ih =>
    by_cases hq : sceneryQualifies h e
    · simp [sceneryRemovalOf, hq, ih, List.filter_cons]
    · simp [sceneryRemovalOf, hq, ih, List.filter_cons]

/-- The removal-cost scan accumulates exactly the removal prices of the
qualifying small-scenery elements. -/
theorem removalCostOf_eq_sum (h : Nat) (l : List TileElement) :
    removalCostOf h l
      = ((l.filter (sceneryQualifies h)).map (fun e => MONEY (removalPrice e))).sum := by
  induction l with
  | nil => rfl
  | cons e rest ih =>
    by_cases hq : sceneryQualifies h e
    · simp [removalCostOf, hq, ih, List.filter_cons]
    · simp [removalCostOf, hq, ih, List.filter_cons]

/-- The length of a filtered list is bounded by the original's. -/
theorem filter_length_sub (p : TileElement → Bool) (l : List TileElement) :
    (l.filter (fun e => !p e)).length = l.length - (l.filter p).length := by
  induction l with
  | nil => rfl
  | cons e rest ih =>
    have hle := List.length_filter_le p rest
    by_cases hq : p e
    · simp [List.filter_cons, hq, ih]
    · simp [List.filter_cons, hq, ih]
      omega

/-- C4 (amended): when the first element of the cell's stack is not
itself a qualifying small-scenery element — as in any cell whose surface
element precedes the scenery above it — the compacting removal loop
removes exactly the qualifying small-scenery elements (the resulting
stack is the original minus precisely those N elements, each visited
once even as earlier removals shift later ones), and the removal cost
scan charges exactly the sum of their individual removal prices. -/
theorem c4_removal_completeness (h : Nat) (stack : List TileElement)
    (hhead : ∀ e ∈ stack.take 1, sceneryQualifies h e = false) :
    sceneryRemovalOf h true stack = stack.filter (fun e => !sceneryQualifies h e) ∧
    (sceneryRemovalOf h true stack).length
      = stack.length - (stack.filter (sceneryQualifies h)).length ∧
    removalCostOf h stack
      = ((stack.filter (sceneryQualifies h)).map (fun e => MONEY (removalPrice e))).sum := by
  have hmain : sceneryRemovalOf h true stack
      = stack.filter (fun e => !sceneryQualifies h e) := by
    cases stack with
    | nil => rfl
    | cons e rest =>
      have he : sceneryQualifies h e = false := hhead e (by simp)
      simp [sceneryRemovalOf, he, sceneryRemovalOf_false_eq_filter, List.filter_cons]
  refine ⟨hmain, ?_, removalCostOf_eq_sum h stack⟩
  rw [hmain, filter_length_sub]

/-- C4 witness: on a surface-first stack with three adjacent qualifying
scenery elements all three are removed and the cost is the sum of the
three prices, by the amended theorem; the evaluated conclusions are
stated concretely. -/
theorem c4_removal_completeness_witness :
    (∀ e ∈ stack3.take 1, sceneryQualifies 16 e = false) ∧
      (sceneryRemovalOf 16 true stack3
          = stack3.filter (fun e => !sceneryQualifies 16 e) ∧
        (sceneryRemovalOf 16 true stack3).length
          = stack3.length - (stack3.filter (sceneryQualifies 16)).length ∧
        removalCostOf 16 stack3
          = ((stack3.filter (sceneryQualifies 16)).map
              (fun e => MONEY (removalPrice e))).sum) ∧
      sceneryRemovalOf 16 true stack3 = [surf14] ∧
      removalCostOf 16 stack3 = MONEY 80 :=
  ⟨by decide, c4_removal_completeness 16 stack3 (by decide), by decide, by decide⟩

/-- C4 counterexample: on a stack whose first element is itself a
qualifying small-scenery element (two adjacent qualifying elements, no
surface below them), the loop removes only the first one — stepping the
cursor back from the tile's first slot reads the previous tile's
last-for-tile flag and stops — so the second qualifying element
survives, contradicting removal of exactly the N qualifying elements. -/
theorem c4_removal_completeness_counterexample :
    sceneryQualifies 16 scenA = true ∧ sceneryQualifies 16 scenB = true ∧
      sceneryRemovalOf 16 true [scenA, scenB] = [scenB] ∧
      sceneryRemovalOf 16 true [scenA, scenB]
        ≠ [scenA, scenB].filter (fun e => !sceneryQualifies 16 e) := by
  refine ⟨by decide, by decide, by decide, by decide⟩

/-- When the tail of Query succeeds, its cost is the scenery removal
cost it was handed plus the height-change cost of the surface. -/
theorem queryAfterCrossing_ok_cost (w : World) (a : LandSetHeightAction) (si : Nat)
    (se : TileElement) (c : Int)
    (hok : ((QueryAfterCrossing w a si se c).1).error = .ok) :
    ((QueryAfterCrossing w a si se c).1).cost = c + GetSurfaceHeightChangeCost a se := by
  revert hok
  simp only [QueryAfterCrossing]
  repeat' split
  all_goals intro hok
  all_goals first
    | rfl
    | simp [mkError, mkObstruction, mkClearError] at hok

/-- When the surface-onwards part of Query succeeds, the cell has a
surface element and the cost decomposes as the scenery removal cost plus
the height-change cost of that surface. -/
theorem querySurfaceOnwards_ok_cost (w : World) (a : LandSetHeightAction) (c : Int)
    (hok : ((QuerySurfaceOnwards w a c).1).error = .ok) :
    ∃ si se, map_get_surface_element_at w a.coords = some (si, se) ∧
      ((QuerySurfaceOnwards w a c).1).cost = c + GetSurfaceHeightChangeCost a se := by
  cases hsurf : map_get_surface_element_at w a.coords with
  | none => simp [QuerySurfaceOnwards, hsurf, mkError] at hok
  | some pr =>
    obtain ⟨si, se⟩ := pr
    cases hpath : map_get_footpath_element w a.coords (se.base * COORDS_Z_STEP) with
    | some pe =>
      by_cases hcr : pathIsLevelCrossing pe = true
      · simp [QuerySurfaceOnwards, hsurf, hpath, hcr, mkError] at hok
      · have hred : QuerySurfaceOnwards w a c = QueryAfterCrossing w a si se c := by
          simp [QuerySurfaceOnwards, hsurf, hpath, hcr]
        rw [hred] at hok
        exact ⟨si, se, rfl, by
          rw [hred]
          exact queryAfterCrossing_ok_cost w a si se c hok⟩
    | none =>
      have hred : QuerySurfaceOnwards w a c = QueryAfterCrossing w a si se c := by
        simp [QuerySurfaceOnwards, hsurf, hpath]
      rw [hred] at hok
      exact ⟨si, se, rfl, by
        rw [hred]
        exact queryAfterCrossing_ok_cost w a si se c hok⟩

/-- When the supports-onwards part of Query succeeds, the cell has a
surface element and the cost decomposes as the scenery removal cost plus
the height-change cost of that surface. -/
theorem querySupportsOnwards_ok_cost (w : World) (a : LandSetHeightAction) (c : Int)
    (hok : ((QuerySupportsOnwards w a c).1).error = .ok) :
    ∃ si se, map_get_surface_element_at w a.coords = some (si, se) ∧
      ((QuerySupportsOnwards w a c).1).cost = c + GetSurfaceHeightChangeCost a se := by
  cases hsl : w.cheatsDisableSupportLimits with
  | true =>
    have hred : QuerySupportsOnwards w a c = QuerySurfaceOnwards w a c := by
      simp [QuerySupportsOnwards, hsl]
    rw [hred] at hok ⊢
    exact querySurfaceOnwards_ok_cost w a c hok
  | false =>
    by_cases hrs : CheckRideSupports w a = StringId.none
    · have hred : QuerySupportsOnwards w a c = QuerySurfaceOnwards w a c := by
        simp [QuerySupportsOnwards, hsl, hrs]
      rw [hred] at hok ⊢
      exact querySurfaceOnwards_ok_cost w a c hok
    · simp [QuerySupportsOnwards, hsl, hrs, mkError] at hok

/-- When Query succeeds, its cost decomposes as the scenery removal cost
(zero when clearance checks are disabled) plus the height-change cost of
the cell's surface element. -/
theorem queryRun_ok_cost (w : World) (a : LandSetHeightAction)
    (hok : ((QueryRun w a).1).error = .ok) :
    ∃ si se, map_get_surface_element_at w a.coords = some (si, se) ∧
      ((QueryRun w a).1).cost =
        (if !w.cheatsDisableClearanceChecks then GetSmallSceneryRemovalCost w a else 0)
          + GetSurfaceHeightChangeCost a se := by
  cases hf : w.forbidLandscapeChanges with
  | true => simp [QueryRun, hf, mkError] at hok
  | false =>
  by_cases hcp : CheckParameters w a = StringId.none
  case neg => simp [QueryRun, hf, hcp, mkError] at hok
  case pos =>
  by_cases hown : ((!w.screenScenarioEditor && !w.cheatsSandboxMode)
      && !w.inPark a.coords) = true
  case pos => simp [QueryRun, hf, hcp, hown, mkError] at hok
  case neg =>
  cases hcc : w.cheatsDisableClearanceChecks with
  | true =>
    have hred : QueryRun w a = QuerySupportsOnwards w a 0 := by
      simp [QueryRun, hf, hcp, hown, hcc]
    rw [hred] at hok
    obtain ⟨si, se, hs, hc⟩ := querySupportsOnwards_ok_cost w a 0 hok
    refine ⟨si, se, hs, ?_⟩
    rw [hred, hc]
    simp [hcc]
  | false =>
    cases hft : w.forbidTreeRemoval with
    | false =>
      have hred : QueryRun w a = QuerySupportsOnwards w a (GetSmallSceneryRemovalCost w a) := by
        simp [QueryRun, hf, hcp, hown, hcc, hft]
      rw [hred] at hok
      obtain ⟨si, se, hs, hc⟩ := querySupportsOnwards_ok_cost w a _ hok
      refine ⟨si, se, hs, ?_⟩
      rw [hred, hc]
      simp [hcc]
    | true =>
      cases htr : CheckTreeObstructions w a with
      | some te => simp [QueryRun, hf, hcp, hown, hcc, hft, htr, mkObstruction] at hok
      | none =>
        have hred : QueryRun w a
            = QuerySupportsOnwards w a (GetSmallSceneryRemovalCost w a) := by
          simp [QueryRun, hf, hcp, hown, hcc, hft, htr]
        rw [hred] at hok
        obtain ⟨si, se, hs, hc⟩ := querySupportsOnwards_ok_cost w a _ hok
        refine ⟨si, se, hs, ?_⟩
        rw [hred, hc]
        simp [hcc]

/-- C3 (amended): the height-change cost is the sum over the four
corners of MONEY(abs(current − proposed)·5/2, 0), the 5/2 rate being
applied per corner under integer floor division; a uniform 1-unit raise
of a flat cell with flat target style costs 4 × MONEY(2, 0); and a
successful Query prices the command as scenery removal cost plus
height-change cost. -/
theorem c3_cost_model :
    (∀ (a : LandSetHeightAction) (se : TileElement),
      GetSurfaceHeightChangeCost a se =
        cornerCost (tile_element_get_corner_height se 0)
            (map_get_corner_height a.height (a.style &&& TILE_ELEMENT_SURFACE_SLOPE_MASK) 0)
          + cornerCost (tile_element_get_corner_height se 1)
              (map_get_corner_height a.height (a.style &&& TILE_ELEMENT_SURFACE_SLOPE_MASK) 1)
          + cornerCost (tile_element_get_corner_height se 2)
              (map_get_corner_height a.height (a.style &&& TILE_ELEMENT_SURFACE_SLOPE_MASK) 2)
          + cornerCost (tile_element_get_corner_height se 3)
              (map_get_corner_height a.height (a.style &&& TILE_ELEMENT_SURFACE_SLOPE_MASK) 3)) ∧
    (∀ (a : LandSetHeightAction) (se : TileElement),
      surfaceSlope se = 0 → a.style &&& TILE_ELEMENT_SURFACE_SLOPE_MASK = 0 →
      a.height = se.base + 1 →
      GetSurfaceHeightChangeCost a se = 4 * MONEY 2) ∧
    (∀ (w : World) (a : LandSetHeightAction), ((QueryRun w a).1).error = Status.ok →
      ∃ si se, map_get_surface_element_at w a.coords = some (si, se) ∧
        ((QueryRun w a).1).cost =
          (if !w.cheatsDisableClearanceChecks then GetSmallSceneryRemovalCost w a else 0)
            + GetSurfaceHeightChangeCost a se) := by
  refine ⟨fun a se => ?_, fun a se h0 hs hh => ?_, fun w a hok => queryRun_ok_cost w a hok⟩
  · simp [GetSurfaceHeightChangeCost, ALL_DIRECTIONS, List.foldl]
  · have hc : ∀ i, tile_element_get_corner_height se i = se.base := by
      intro i
      rw [tile_element_get_corner_height, h0]
      unfold map_get_corner_height
      rcases i with _ | _ | _ | i <;> simp
    have hp : ∀ i,
        map_get_corner_height a.height (a.style &&& TILE_ELEMENT_SURFACE_SLOPE_MASK) i
          = se.base + 1 := by
      intro i
      rw [hs, hh]
      unfold map_get_corner_height
      rcases i with _ | _ | _ | i <;> simp
    have h1 : cornerCost se.base (se.base + 1) = MONEY 2 := by
      rw [cornerCost]
      have : ((se.base : Int) - ((se.base + 1 : Nat) : Int)) = -1 := by
        push_cast
        ring
      rw [this]
      rfl
    simp [GetSurfaceHeightChangeCost, ALL_DIRECTIONS, List.foldl, hc, hp, h1, MONEY]

/-- C3 witness: the uniform 1-unit flat raise of the height-14 surface
costs 4 × MONEY(2, 0), and Query on the concrete one-surface world
succeeds with a cost decomposing into scenery plus height-change cost
(here MONEY(20, 0): four corners of 2 units each). -/
theorem c3_cost_model_witness :
    GetSurfaceHeightChangeCost act15 surf14 = 4 * MONEY 2 ∧
      (∃ si se, map_get_surface_element_at W16 act0.coords = some (si, se) ∧
        ((QueryRun W16 act0).1).cost =
          (if !W16.cheatsDisableClearanceChecks then GetSmallSceneryRemovalCost W16 act0
           else 0) + GetSurfaceHeightChangeCost act0 se) ∧
      ((QueryRun W16 act0).1).cost = MONEY 20 :=
  ⟨c3_cost_model.2.1 act15 surf14 rfl (by decide) (by decide),
   c3_cost_model.2.2 W16 act0 (by decide),
   by decide⟩

/-- C3 counterexample: no single fixed per-unit rate prices the height
change as rate × (sum of corner deltas) — a uniform 1-unit raise has
corner-delta sum 4 and costs MONEY(8, 0) (rate 2 per unit after the
per-corner floor of 5/2), while a uniform 2-unit raise has corner-delta
sum 8 and costs MONEY(20, 0) (rate 5/2 per unit). -/
theorem c3_cost_model_counterexample :
    (ALL_DIRECTIONS.map (fun i =>
        ((tile_element_get_corner_height surf14 i : Int)
          - (map_get_corner_height act15.height
              (act15.style &&& TILE_ELEMENT_SURFACE_SLOPE_MASK) i : Int)).natAbs)).sum = 4 ∧
    (ALL_DIRECTIONS.map (fun i =>
        ((tile_element_get_corner_height surf14 i : Int)
          - (map_get_corner_height act0.height
              (act0.style &&& TILE_ELEMENT_SURFACE_SLOPE_MASK) i : Int)).natAbs)).sum = 8 ∧
    ¬ ∃ rate : Int,
        GetSurfaceHeightChangeCost act15 surf14 = 4 * rate ∧
        GetSurfaceHeightChangeCost act0 surf14 = 8 * rate := by
  refine ⟨by decide, by decide, ?_⟩
  rintro ⟨rate, h1, h2⟩
  have e1 : GetSurfaceHeightChangeCost act15 surf14 = 80 := by decide
  have e2 : GetSurfaceHeightChangeCost act0 surf14 = 200 := by decide
  rw [e1] at h1
  rw [e2] at h2
  omega

/-- A cell with no surface-typed element has no surface lookup result. -/
theorem surface_none_of_no_surface (w : World) (c : CoordsXY)
    (h : ∀ e ∈ w.tiles c, e.getType ≠ ElementType.surface) :
    map_get_surface_element_at w c = Option.none := by
  rw [map_get_surface_element_at]
  refine List.find?_eq_none.mpr ?_
  rintro ⟨i, e⟩ hmem
  have he : e ∈ w.tiles c :=
    List.getElem?_mem (List.mem_enum_iff_getElem?.mp hmem)
  simp [h e he]

/-- Every element surviving the compacting removal loop was in the
original stack. -/
theorem sceneryRemovalOf_mem (h : Nat) (b : Bool) (l : List TileElement) :
    ∀ e ∈ sceneryRemovalOf h b l, e ∈ l := by
  induction l generalizing b with
  | nil =>
    intro e he
    simp [sceneryRemovalOf] at he
  | cons x rest ih =>
    intro e he
    by_cases hq : sceneryQualifies h x
    · cases b with
      | true =>
        simp only [sceneryRemovalOf, hq, if_true] at he
        exact List.mem_cons_of_mem x he
      | false =>
        simp only [sceneryRemovalOf, hq, if_true] at he
        exact List.mem_cons_of_mem x (ih false e he)
    · simp only [sceneryRemovalOf, hq, if_false] at he
      rcases List.mem_cons.mp he with h1 | h1
      · exact h1 ▸ List.mem_cons_self x rest
      · exact List.mem_cons_of_mem x (ih false e h1)

/-- C9: when the target cell holds no surface element (with clearance
checks enabled), Execute returns an Unknown result carrying no cost and
performs no surface-height mutation, but the world it returns is the one
already transformed by the litter-removal, wall-removal and
scenery-removal steps sequenced before the surface lookup — a failing
Execute does not leave the world unchanged. -/
theorem c9_execute_unknown_keeps_removals (w : World) (a : LandSetHeightAction)
    (hcc : w.cheatsDisableClearanceChecks = false)
    (hnos : ∀ e ∈ w.tiles a.coords, e.getType ≠ ElementType.surface) :
    ExecuteRun w a
      = (mkError .unknown .none,
         SmallSceneryRemoval
           (wallRemoveAt (footpathRemoveLitter w a.coords (tile_element_height w a.coords))
             a.coords ((a.height : Int) * 8 - 16) ((a.height : Int) * 8 + 32)) a) := by
  have key : map_get_surface_element_at
      (SmallSceneryRemoval
        (wallRemoveAt (footpathRemoveLitter w a.coords (tile_element_height w a.coords))
          a.coords ((a.height : Int) * 8 - 16) ((a.height : Int) * 8 + 32)) a)
      a.coords = Option.none := by
    apply surface_none_of_no_surface
    intro e he
    simp only [SmallSceneryRemoval, wallRemoveAt, footpathRemoveLitter, if_pos] at he
    have h1 := sceneryRemovalOf_mem a.height true _ e he
    exact hnos e (List.mem_of_mem_filter h1)
  simp [ExecuteRun, hcc, key]

/-- C9 witness: on a concrete surfaceless cell holding a wall and a
qualifying scenery element, Execute returns Unknown with the removals
applied; the returned world's cell is emptied and the litter event was
recorded, so the failed Execute visibly changed the world. -/
theorem c9_execute_unknown_keeps_removals_witness :
    WNoSurf.cheatsDisableClearanceChecks = false ∧
      (∀ e ∈ WNoSurf.tiles act0.coords, e.getType ≠ ElementType.surface) ∧
      ExecuteRun WNoSurf act0
        = (mkError .unknown .none,
           SmallSceneryRemoval
             (wallRemoveAt
               (footpathRemoveLitter WNoSurf act0.coords
                 (tile_element_height WNoSurf act0.coords))
               act0.coords ((act0.height : Int) * 8 - 16) ((act0.height : Int) * 8 + 32))
             act0) ∧
      ((ExecuteRun WNoSurf act0).2).tiles ⟨320, 320⟩ ≠ WNoSurf.tiles ⟨320, 320⟩ ∧
      ((ExecuteRun WNoSurf act0).2).removedLitter ≠ WNoSurf.removedLitter ∧
      ((ExecuteRun WNoSurf act0).1).cost = 0 :=
  ⟨rfl, by decide,
   c9_execute_unknown_keeps_removals WNoSurf act0 rfl (by decide),
   by decide, by decide, by decide⟩

end LandSetHeight
